import Mathlib

/-!
Verification of the question-bank autotagger backend.

This file gives a shallow embedding of `backend/autotagger.py`: the key
rotators, the two retrying API clients (text generation and video search),
the comparison detector and system-prompt construction, and the
question-bank walker `process_subject` with its cancellation checkpoints,
snapshot saves, anomaly flagging and final status events.  External API
calls are modelled by oracles (lists of per-attempt outcomes, per-question
result records); the cooperative stop flag is modelled by the index of the
first `is_set()` call that observes it set.
-/

set_option maxRecDepth 8000

/-! ## Data model (JSON question bank, `autotagger.py` §3) -/

/-- A found YouTube video reference, as built in `search_youtube_video`. -/
structure VideoRef where
  videoId : String
  vtitle : String
  channelTitle : String
  searchQuery : String
deriving Repr, DecidableEq

/-- One question of the bank.  `video = none` models a missing key,
`video = some none` models the explicit JSON `null` written after a
search that found nothing, `video = some (some v)` a found reference. -/
structure Question where
  text : String
  history : List (Option Int)
  video : Option (Option VideoRef)
  solution : Option String
deriving Repr, DecidableEq

/-- One unit of the bank (`unit` in the JSON). -/
structure QUnit where
  utitle : String
  questions : List Question
deriving Repr, DecidableEq

/-- A whole question bank (`data` in the source). -/
structure Subject where
  stitle : String
  units : List QUnit
deriving Repr, DecidableEq

/-- Python truthiness of the `video` field as used in
`if not question.get('video')`: a missing key and an explicit `null`
are both falsy, a found reference dict is truthy. -/
def videoTruthy : Option (Option VideoRef) → Bool
  | some (some _) => true
  | _ => false

/-- Python truthiness of a string (`if search_query:` etc.):
the empty string is falsy. -/
def strTruthy (s : String) : Bool := !(s == "")

/-- Python truthiness of an optional string field (`question.get(...)`):
`None` and the empty string are falsy. -/
def optStrTruthy : Option String → Bool
  | none => false
  | some s => strTruthy s

/-! ## Key rotation (`switch_groq_api_key`, `switch_youtube_key`) -/

/-- `switch_groq_api_key`: with no configured keys returns `None`;
otherwise advances the global cursor to `(i + 1) % len(keys)` and
returns the new cursor. -/
def switch_groq_api_key (keys : List String) (i : Nat) : Option Nat :=
  if keys = [] then none
  else some ((i + 1) % keys.length)

/-- `switch_youtube_key`: identical cursor update for the YouTube keys. -/
def switch_youtube_key (keys : List String) (i : Nat) : Option Nat :=
  if keys = [] then none
  else some ((i + 1) % keys.length)

/-- Iterating the Groq key switch `n` times from cursor `i`. -/
def advanceN (keys : List String) : Nat → Nat → Nat
  | i, 0 => i
  | i, n + 1 =>
    match switch_groq_api_key keys i with
    | some j => advanceN keys j n
    | none => i

lemma advanceN_eq (keys : List String) (hk : keys ≠ []) :
    ∀ (n i : Nat), i < keys.length → advanceN keys i n = (i + n) % keys.length := by
  intro n
  induction n with
  | zero =>
    intro i hi
    simp [advanceN, Nat.mod_eq_of_lt hi]
  | succ n ih =>
    intro i hi
    have hlen : 0 < keys.length := List.length_pos.mpr hk
    have hstep : (i + 1) % keys.length < keys.length := Nat.mod_lt _ hlen
    simp only [advanceN, switch_groq_api_key, hk, if_false, ite_false, if_neg,
      not_false_iff]
    rw [ih _ hstep, Nat.mod_add_mod]
    congr 1
    omega

/-! ## Generation client (`generate_with_retry`) -/

/-- Outcome of one Groq chat-completion attempt, as distinguished by the
`except` clauses of `generate_with_retry`: a returned (stripped) text, a
`RateLimitError`, or any other exception. -/
inductive GenOutcome where
  | success (text : String)
  | rateLimit
  | otherError
deriving Repr, DecidableEq

/-- Whether an attempt outcome is a successful completion. -/
def isSuccess : GenOutcome → Bool
  | GenOutcome.success _ => true
  | _ => false

/-- Observable side effects of the retry loop: key rotations (with the new
cursor value) and `time.sleep` calls (with the duration in seconds). -/
inductive GenAction where
  | rotate (newIndex : Nat)
  | sleep (secs : Nat)
deriving Repr, DecidableEq

/-- The mutable state of the retry loop: the global Groq key cursor and the
local `keys_tried_in_this_attempt` counter. -/
structure GenState where
  keyIndex : Nat
  keysTried : Nat
deriving Repr, DecidableEq

/-- `max_retries` default of `generate_with_retry`. -/
def GEN_MAX_RETRIES : Nat := 10

/-- The `for attempt in range(max_retries)` loop of `generate_with_retry`,
driven by the list of per-attempt outcomes.  Returns the result, the list
of side effects, the number of attempts consumed, and the final state. -/
def generateLoop (numKeys : Nat) :
    List GenOutcome → GenState → Option String × List GenAction × Nat × GenState
  | [], s => (none, [], 0, s)
  | o :: rest, s =>
    match o with
    | GenOutcome.success t => (some t, [], 1, s)
    | GenOutcome.rateLimit =>
      let newIdx := (s.keyIndex + 1) % numKeys
      let tried := s.keysTried + 1
      let cool := numKeys ≤ tried
      let s1 : GenState := ⟨newIdx, if cool then 0 else tried⟩
      let r := generateLoop numKeys rest s1
      (r.1, GenAction.rotate newIdx :: GenAction.sleep (if cool then 20 else 1) :: r.2.1,
        r.2.2.1 + 1, r.2.2.2)
    | GenOutcome.otherError =>
      let r := generateLoop numKeys rest s
      (r.1, GenAction.sleep 5 :: r.2.1, r.2.2.1 + 1, r.2.2.2)

/-- `generate_with_retry`: returns `None` immediately when no Groq client is
initialized; otherwise runs the bounded retry loop with the
`keys_tried_in_this_attempt` counter starting at 0. -/
def generate_with_retry (numKeys : Nat) (clientInit : Bool) (keyIndex : Nat)
    (outcomes : List GenOutcome) : Option String × List GenAction × Nat × GenState :=
  match clientInit with
  | false => (none, [], 0, ⟨keyIndex, 0⟩)
  | true => generateLoop numKeys (outcomes.take GEN_MAX_RETRIES) ⟨keyIndex, 0⟩

lemma generateLoop_attempts_le (numKeys : Nat) :
    ∀ (outcomes : List GenOutcome) (s : GenState),
      (generateLoop numKeys outcomes s).2.2.1 ≤ outcomes.length := by
  intro outcomes
  induction outcomes with
  | nil => intro s; simp [generateLoop]
  | cons o rest ih =>
    intro s
    cases o <;> simp [generateLoop] <;> exact ih _

lemma generateLoop_none_iff (numKeys : Nat) :
    ∀ (outcomes : List GenOutcome) (s : GenState),
      (generateLoop numKeys outcomes s).1 = none ↔
        outcomes.all (fun o => !isSuccess o) = true := by
  intro outcomes
  induction outcomes with
  | nil => intro s; simp [generateLoop]
  | cons o rest ih =>
    intro s
    cases o <;> simp [generateLoop, isSuccess, ih]

lemma generateLoop_attempts_eq (numKeys : Nat) :
    ∀ (outcomes : List GenOutcome) (s : GenState),
      outcomes.all (fun o => !isSuccess o) = true →
      (generateLoop numKeys outcomes s).2.2.1 = outcomes.length := by
  intro outcomes
  induction outcomes with
  | nil => intro s _; simp [generateLoop]
  | cons o rest ih =>
    intro s h
    rw [List.all_cons, Bool.and_eq_true] at h
    rcases h with ⟨h1, h2⟩
    cases o with
    | success t => simp [isSuccess] at h1
    | rateLimit => simp [generateLoop, ih _ h2]
    | otherError => simp [generateLoop, ih _ h2]

/-! ## Video search client (`search_youtube_video`) -/

/-- Outcome of one YouTube search attempt, as distinguished in
`search_youtube_video`: a first item, an empty item list, an `HttpError`
with status 403/400 (auth/quota class), or any other error. -/
inductive SearchOutcome where
  | found (v : VideoRef)
  | noItems
  | authError
  | otherError
deriving Repr, DecidableEq

/-- The `while keys_tried < max_attempts` loop of `search_youtube_video`,
with `budget = max_attempts - keys_tried`.  Returns the result, the number
of attempts made, and the number of key rotations performed. -/
def searchLoop (numKeys : Nat) : Nat → List SearchOutcome → Option VideoRef × Nat × Nat
  | 0, _ => (none, 0, 0)
  | _ + 1, [] => (none, 0, 0)
  | b + 1, o :: rest =>
    match o with
    | SearchOutcome.found v => (some v, 1, 0)
    | SearchOutcome.noItems => (none, 1, 0)
    | SearchOutcome.otherError => (none, 1, 0)
    | SearchOutcome.authError =>
      if 1 < numKeys then
        let r := searchLoop numKeys b rest
        (r.1, r.2.1 + 1, r.2.2 + 1)
      else (none, 1, 0)

/-- `search_youtube_video`: returns `None` with no attempt on an empty
(falsy) query or an uninitialized client; otherwise runs the key-bounded
loop with `max_attempts = len(YOUTUBE_API_KEYS)` (1 when empty). -/
def search_youtube_video (numKeys : Nat) (ytInit : Bool) (query : String)
    (outcomes : List SearchOutcome) : Option VideoRef × Nat × Nat :=
  if query = "" then (none, 0, 0)
  else
    match ytInit with
    | false => (none, 0, 0)
    | true => searchLoop numKeys (if numKeys = 0 then 1 else numKeys) outcomes

lemma searchLoop_attempts_le (numKeys : Nat) :
    ∀ (outcomes : List SearchOutcome) (b : Nat),
      (searchLoop numKeys b outcomes).2.1 ≤ b := by
  intro outcomes
  induction outcomes with
  | nil => intro b; cases b <;> simp [searchLoop]
  | cons o rest ih =>
    intro b
    cases b with
    | zero => simp [searchLoop]
    | succ b =>
      cases o <;> simp [searchLoop]
      split
      · simpa using ih b
      · simp

lemma searchLoop_attempts_pos (numKeys : Nat) (o : SearchOutcome)
    (rest : List SearchOutcome) (b : Nat) :
    1 ≤ (searchLoop numKeys (b + 1) (o :: rest)).2.1 := by
  cases o <;> simp [searchLoop]
  split
  · simp
  · simp

/-! ## Comparison detector and solution prompt (`is_comparison_question`,
`get_detailed_solution`) -/

/-- Scan of a character list for an occurrence of `needle` starting at any
position (including the very end for an empty needle). -/
def containsAt (needle : List Char) : List Char → Bool
  | [] => needle.isEmpty
  | c :: rest => needle.isPrefixOf (c :: rest) || containsAt needle rest

/-- Substring test: Python's `needle in hay`. -/
def strContains (hay needle : String) : Bool :=
  containsAt needle.toList hay.toList

/-- Python's `str.lower()`, as a character-wise map (the keywords and all
ASCII text lowercase identically). -/
def strLower (s : String) : String := String.mk (s.toList.map Char.toLower)

/-- The fixed keyword list of `is_comparison_question`. -/
def comparison_keywords : List String :=
  ["compare", "difference", "distinguish", "versus", " vs ",
   "differentiate", "comparison", "similarities", "contrast"]

/-- `is_comparison_question`: any keyword occurs in the lowercased text. -/
def is_comparison_question (text : String) : Bool :=
  comparison_keywords.any (fun k => strContains (strLower text) k)

/-- The mandatory-table formatting override appended for comparison
questions (`formatting_override` in `get_detailed_solution`). -/
def formatting_override : String :=
  "\n\n🚨 **MANDATORY FORMATTING FOR THIS QUESTION** 🚨\n" ++
  "This question asks for a COMPARISON or DIFFERENCE.\n" ++
  "1. You MUST present the core differences in a **Markdown Table**.\n" ++
  "2. The table must have clear columns (e.g., Parameter | Concept A | Concept B).\n" ++
  "3. Do NOT write the differences as paragraphs. Use the table."

/-- The fixed part of the system prompt of `get_detailed_solution`. -/
def base_system_prompt : String :=
  "You are an expert Engineering Professor for Sant Gadge Baba Amravati University.\n" ++
  "Your task is to write detailed, academic exam solutions.\n\n" ++
  "**CORE RULES (STRICT ADHERENCE REQUIRED):**\n" ++
  "1. **NO REPETITION:** Do NOT repeat the question. Do NOT output your internal instructions. Start the answer immediately.\n" ++
  "2. **MATH FORMATTING:** Use `$$` for ALL distinct equations. \n" ++
  "   - Syntax: `$$ equation $$` (with blank lines before and after).\n" ++
  "   - NEVER use inline math `$` for formulas.\n" ++
  "3. **DERIVATIONS:** Show every step clearly on new lines.\n" ++
  "4. **STRUCTURE:** Use `## Headings` and bullet points.\n" ++
  "5. **DIAGRAMS:** If needed, use Mermaid.js syntax inside ```mermaid blocks.\n"

/-- The system prompt built by `get_detailed_solution`: the fixed rules
followed by the formatting override exactly when the comparison detector
fires (the override variable is the empty string otherwise). -/
def get_detailed_solution_system_prompt (question_text : String) : String :=
  base_system_prompt ++
    (if is_comparison_question question_text then formatting_override else "")

/-! ## Question-bank walker (`process_subject`) -/

/-- `FORCE_REGENERATE_SOLUTIONS` constant of the source. -/
def FORCE_REGENERATE_SOLUTIONS : Bool := true

/-- The anomaly-threshold on generated solution length. -/
def ANOMALY_THRESHOLD : Nat := 8000

/-- The cooperative stop flag, modelled by the index of the first
`stop_event.is_set()` call that observes it set (`none` = never set).
Each `is_set()` call during the walk consumes one index, so the flag is
monotone over the run. -/
def stopIsSet (stopAt : Option Nat) (i : Nat) : Bool :=
  match stopAt with
  | none => false
  | some k => k ≤ i

/-- Claim-relevant events of a walk, in program order: the generation
client being asked for a search query, the video-search client being
queried, the two in-memory mutations, the snapshot write
(`save_json_file(OUTPUT_FILENAME, data)`), and the two final status
records put on the log queue. -/
inductive Event where
  | genQuery
  | searchCall
  | setVideo (v : Option VideoRef)
  | setSolution (s : String)
  | save
  | statusStopped
  | statusComplete
deriving Repr, DecidableEq

/-- An anomaly record: unit index, question index, character count (the
source formats these into the watch-list string). -/
abbrev Anom := Nat × Nat × Nat

/-- External results for one question: what `get_youtube_search_query`,
`search_youtube_video` and `get_detailed_solution` would return. -/
structure QOracle where
  queryRes : Option String
  searchRes : Option VideoRef
  solutionRes : Option String
deriving Repr, DecidableEq

/-- Result of processing (part of) one question. -/
structure QStepOut where
  q : Question
  events : List Event
  anomalies : List Anom
  checkIdx : Nat
  stopped : Bool
deriving Repr, DecidableEq

/-- Step 1 (video) of the per-question loop body: skipped when the `video`
field is truthy; otherwise a query is generated, the stop flag is checked,
and on a truthy query the search result — found reference or explicit
`null` — is written to the question, with a snapshot save only in the
found case. -/
def videoStep (stopAt : Option Nat) (checkIdx : Nat) (ora : QOracle)
    (q : Question) : QStepOut :=
  if videoTruthy q.video then ⟨q, [], [], checkIdx, false⟩
  else
    if stopIsSet stopAt checkIdx then ⟨q, [Event.genQuery], [], checkIdx + 1, true⟩
    else
      if optStrTruthy ora.queryRes then
        match ora.searchRes with
        | some v =>
          ⟨{ q with video := some (some v) },
            [Event.genQuery, Event.searchCall, Event.setVideo (some v), Event.save],
            [], checkIdx + 1, false⟩
        | none =>
          ⟨{ q with video := some none },
            [Event.genQuery, Event.searchCall, Event.setVideo none],
            [], checkIdx + 1, false⟩
      else ⟨q, [Event.genQuery], [], checkIdx + 1, false⟩

/-- Step 2 (solution) of the per-question loop body: runs whenever the
force flag is on or no truthy solution exists; the generated text is
produced, the stop flag is checked, and a truthy result is written to the
question, flagged as an anomaly above the length threshold, and followed
by a snapshot save. -/
def solutionStep (stopAt : Option Nat) (uIdx qIdx checkIdx : Nat) (ora : QOracle)
    (q : Question) : QStepOut :=
  if FORCE_REGENERATE_SOLUTIONS || !(optStrTruthy q.solution) then
    if stopIsSet stopAt checkIdx then ⟨q, [], [], checkIdx + 1, true⟩
    else
      match ora.solutionRes with
      | some s =>
        if strTruthy s then
          ⟨{ q with solution := some s },
            [Event.setSolution s, Event.save],
            if ANOMALY_THRESHOLD < s.length then [(uIdx, qIdx, s.length)] else [],
            checkIdx + 1, false⟩
        else ⟨q, [], [], checkIdx + 1, false⟩
      | none => ⟨q, [], [], checkIdx + 1, false⟩
  else ⟨q, [], [], checkIdx, false⟩

/-- The body of the question loop for one question: the checkpoint before
the video step, the video step, the checkpoint before the solution step,
and the solution step (which holds the post-generation checkpoint). -/
def processQuestion (stopAt : Option Nat) (uIdx qIdx checkIdx : Nat) (ora : QOracle)
    (q : Question) : QStepOut :=
  if stopIsSet stopAt checkIdx then ⟨q, [], [], checkIdx + 1, true⟩
  else
    let v := videoStep stopAt (checkIdx + 1) ora q
    if v.stopped then v
    else if stopIsSet stopAt v.checkIdx then
      ⟨v.q, v.events, v.anomalies, v.checkIdx + 1, true⟩
    else
      let s := solutionStep stopAt uIdx qIdx (v.checkIdx + 1) ora v.q
      ⟨s.q, v.events ++ s.events, v.anomalies ++ s.anomalies, s.checkIdx, s.stopped⟩

/-- Result of processing (part of) the question list of a unit. -/
structure QsOut where
  qs : List Question
  events : List Event
  anomalies : List Anom
  checkIdx : Nat
  stopped : Bool
deriving Repr, DecidableEq

/-- Default oracle used when the supplied per-question oracle list is
shorter than the question list (all external calls fail). -/
def defaultOracle : QOracle := ⟨none, none, none⟩

/-- The inner `for q_idx, question in enumerate(...)` loop: on a stop
inside a question the partially-updated question is kept in place and the
remaining questions are returned untouched. -/
def processQuestions (stopAt : Option Nat) (uIdx : Nat) :
    Nat → Nat → List QOracle → List Question → QsOut
  | _, checkIdx, _, [] => ⟨[], [], [], checkIdx, false⟩
  | qIdx, checkIdx, oras, q :: qs =>
    let r := processQuestion stopAt uIdx qIdx checkIdx (oras.headD defaultOracle) q
    if r.stopped then ⟨r.q :: qs, r.events, r.anomalies, r.checkIdx, true⟩
    else
      let rest := processQuestions stopAt uIdx (qIdx + 1) r.checkIdx oras.tail qs
      ⟨r.q :: rest.qs, r.events ++ rest.events, r.anomalies ++ rest.anomalies,
        rest.checkIdx, rest.stopped⟩

/-- Result of processing (part of) the unit list. -/
structure UsOut where
  us : List QUnit
  events : List Event
  anomalies : List Anom
  checkIdx : Nat
  stopped : Bool
deriving Repr, DecidableEq

/-- The outer `for u_idx, unit in enumerate(...)` loop, with the
per-iteration stop checkpoint at its head. -/
def processUnits (stopAt : Option Nat) :
    Nat → Nat → List (List QOracle) → List QUnit → UsOut
  | _, checkIdx, _, [] => ⟨[], [], [], checkIdx, false⟩
  | uIdx, checkIdx, oras, u :: us =>
    if stopIsSet stopAt checkIdx then ⟨u :: us, [], [], checkIdx + 1, true⟩
    else
      let r := processQuestions stopAt uIdx 0 (checkIdx + 1) (oras.headD []) u.questions
      if r.stopped then
        ⟨{ u with questions := r.qs } :: us, r.events, r.anomalies, r.checkIdx, true⟩
      else
        let rest := processUnits stopAt (uIdx + 1) r.checkIdx oras.tail us
        ⟨{ u with questions := r.qs } :: rest.us, r.events ++ rest.events,
          r.anomalies ++ rest.anomalies, rest.checkIdx, rest.stopped⟩

/-- Result of a whole walk over a subject. -/
structure RunOut where
  data : Subject
  events : List Event
  anomalies : List Anom
  finalCheck : Nat
  stopped : Bool
deriving Repr, DecidableEq

/-- `process_subject`: runs the unit loop; on an early cancellation return
the document is handed back as-is, otherwise the final status record —
`Stopped` when the flag is observed set at the closing check, `Complete`
otherwise — is emitted after the loop. -/
def process_subject (stopAt : Option Nat) (oras : List (List QOracle))
    (data : Subject) : RunOut :=
  let r := processUnits stopAt 0 0 oras data.units
  if r.stopped then ⟨{ data with units := r.us }, r.events, r.anomalies, r.checkIdx, true⟩
  else
    let finalEv :=
      if stopIsSet stopAt r.checkIdx then Event.statusStopped else Event.statusComplete
    ⟨{ data with units := r.us }, r.events ++ [finalEv], r.anomalies, r.checkIdx, false⟩

/-! ## Trace predicates -/

/-- Events that record a successful mutation: a found video reference
being written, or a generated solution being written.  (The explicit-null
video write records a search that found nothing.) -/
def needSave : Event → Bool
  | Event.setVideo (some _) => true
  | Event.setSolution _ => true
  | _ => false

/-- Recognizes the snapshot-save event. -/
def isSaveEv : Event → Bool
  | Event.save => true
  | _ => false

/-- Every successful-mutation event is immediately followed by a snapshot
save. -/
def mutationsSaved : List Event → Bool
  | [] => true
  | [e] => !needSave e
  | e :: e' :: rest => (!needSave e || isSaveEv e') && mutationsSaved (e' :: rest)

/-- Recognizes the two final status events. -/
def isStatusEv : Event → Bool
  | Event.statusStopped => true
  | Event.statusComplete => true
  | _ => false

/-- No final-status event occurs in the list. -/
def statusFree (l : List Event) : Bool := l.all (fun e => !isStatusEv e)

/-! ## Walker lemmas -/

lemma stopIsSet_none (i : Nat) : stopIsSet none i = false := rfl

lemma videoStep_skip (stopAt : Option Nat) (c : Nat) (ora : QOracle) (q : Question)
    (h : videoTruthy q.video = true) :
    videoStep stopAt c ora q = ⟨q, [], [], c, false⟩ := by
  simp [videoStep, h]

lemma videoStep_solution (stopAt : Option Nat) (c : Nat) (ora : QOracle) (q : Question) :
    (videoStep stopAt c ora q).q.solution = q.solution := by
  unfold videoStep
  split
  · rfl
  split
  · rfl
  split
  · split <;> rfl
  · rfl

lemma videoStep_anomalies (stopAt : Option Nat) (c : Nat) (ora : QOracle) (q : Question) :
    (videoStep stopAt c ora q).anomalies = [] := by
  unfold videoStep
  split
  · rfl
  split
  · rfl
  split
  · split <;> rfl
  · rfl

lemma videoStep_saved (stopAt : Option Nat) (c : Nat) (ora : QOracle) (q : Question) :
    mutationsSaved (videoStep stopAt c ora q).events = true := by
  unfold videoStep
  split
  · rfl
  split
  · rfl
  split
  · split <;> simp [mutationsSaved, needSave, isSaveEv]
  · rfl

lemma videoStep_statusFree (stopAt : Option Nat) (c : Nat) (ora : QOracle) (q : Question) :
    statusFree (videoStep stopAt c ora q).events = true := by
  unfold videoStep
  split
  · rfl
  split
  · rfl
  split
  · split <;> simp [statusFree, isStatusEv]
  · rfl

lemma videoStep_sets (c : Nat) (ora : QOracle) (q : Question)
    (hv : videoTruthy q.video = false) (hq : optStrTruthy ora.queryRes = true) :
    (videoStep none c ora q).q.video = some ora.searchRes ∧
      (videoStep none c ora q).stopped = false := by
  unfold videoStep
  rw [hv, stopIsSet_none, hq]
  cases h : ora.searchRes <;> simp [h]

lemma solutionStep_video (stopAt : Option Nat) (u i c : Nat) (ora : QOracle)
    (q : Question) :
    (solutionStep stopAt u i c ora q).q.video = q.video := by
  unfold solutionStep
  split
  · split
    · rfl
    · split
      · split <;> rfl
      · rfl
  · rfl

lemma solutionStep_failed (stopAt : Option Nat) (u i c : Nat) (ora : QOracle)
    (q : Question) (h : optStrTruthy ora.solutionRes = false) :
    (solutionStep stopAt u i c ora q).q.solution = q.solution := by
  unfold solutionStep
  split
  · split
    · rfl
    · cases hr : ora.solutionRes with
      | none => rfl
      | some s =>
        rw [hr] at h
        simp only [optStrTruthy] at h
        simp [h]
  · rfl

lemma solutionStep_saved (stopAt : Option Nat) (u i c : Nat) (ora : QOracle)
    (q : Question) :
    mutationsSaved (solutionStep stopAt u i c ora q).events = true := by
  unfold solutionStep
  split
  · split
    · rfl
    · split
      · split <;> simp [mutationsSaved, needSave, isSaveEv]
      · rfl
  · rfl

lemma solutionStep_statusFree (stopAt : Option Nat) (u i c : Nat) (ora : QOracle)
    (q : Question) :
    statusFree (solutionStep stopAt u i c ora q).events = true := by
  unfold solutionStep
  split
  · split
    · rfl
    · split
      · split <;> simp [statusFree, isStatusEv]
      · rfl
  · rfl

lemma solutionStep_noVideoEvents (stopAt : Option Nat) (u i c : Nat) (ora : QOracle)
    (q : Question) :
    Event.genQuery ∉ (solutionStep stopAt u i c ora q).events ∧
      Event.searchCall ∉ (solutionStep stopAt u i c ora q).events := by
  unfold solutionStep
  split
  · split
    · simp
    · split
      · split <;> simp
      · simp
  · simp

lemma mutationsSaved_cons (e : Event) (l : List Event) (he : needSave e = false)
    (hl : mutationsSaved l = true) : mutationsSaved (e :: l) = true := by
  cases l with
  | nil => simp [mutationsSaved, he]
  | cons e' rest => simp [mutationsSaved, he, hl]

lemma mutationsSaved_append (a b : List Event) (ha : mutationsSaved a = true)
    (hb : mutationsSaved b = true) : mutationsSaved (a ++ b) = true := by
  induction a with
  | nil => simpa using hb
  | cons e a' ih =>
    cases a' with
    | nil =>
      simp only [mutationsSaved] at ha
      exact mutationsSaved_cons e b (by simpa using ha) hb
    | cons e' rest =>
      simp only [mutationsSaved, Bool.and_eq_true] at ha
      rcases ha with ⟨h1, h2⟩
      have := ih h2
      simp only [List.cons_append, mutationsSaved, Bool.and_eq_true] at this ⊢
      exact ⟨h1, this⟩

lemma statusFree_append (a b : List Event) :
    statusFree (a ++ b) = (statusFree a && statusFree b) := by
  simp [statusFree, List.all_append]

lemma processQuestion_saved (stopAt : Option Nat) (u i c : Nat) (ora : QOracle)
    (q : Question) :
    mutationsSaved (processQuestion stopAt u i c ora q).events = true := by
  unfold processQuestion
  dsimp only
  split
  · rfl
  split
  · exact videoStep_saved _ _ _ _
  split
  · exact videoStep_saved _ _ _ _
  · exact mutationsSaved_append _ _ (videoStep_saved _ _ _ _) (solutionStep_saved _ _ _ _ _ _)

lemma processQuestion_statusFree (stopAt : Option Nat) (u i c : Nat) (ora : QOracle)
    (q : Question) :
    statusFree (processQuestion stopAt u i c ora q).events = true := by
  unfold processQuestion
  dsimp only
  split
  · rfl
  split
  · exact videoStep_statusFree _ _ _ _
  split
  · exact videoStep_statusFree _ _ _ _
  · rw [statusFree_append, videoStep_statusFree, solutionStep_statusFree]
    rfl

lemma processQuestions_saved (stopAt : Option Nat) (u : Nat) :
    ∀ (qs : List Question) (i c : Nat) (oras : List QOracle),
      mutationsSaved (processQuestions stopAt u i c oras qs).events = true := by
  intro qs
  induction qs with
  | nil => intro i c oras; rfl
  | cons q rest ih =>
    intro i c oras
    unfold processQuestions
    dsimp only
    split
    · exact processQuestion_saved _ _ _ _ _ _
    · exact mutationsSaved_append _ _ (processQuestion_saved _ _ _ _ _ _) (ih _ _ _)

lemma processQuestions_statusFree (stopAt : Option Nat) (u : Nat) :
    ∀ (qs : List Question) (i c : Nat) (oras : List QOracle),
      statusFree (processQuestions stopAt u i c oras qs).events = true := by
  intro qs
  induction qs with
  | nil => intro i c oras; rfl
  | cons q rest ih =>
    intro i c oras
    unfold processQuestions
    dsimp only
    split
    · exact processQuestion_statusFree _ _ _ _ _ _
    · rw [statusFree_append, processQuestion_statusFree, ih]
      rfl

lemma processUnits_saved (stopAt : Option Nat) :
    ∀ (us : List QUnit) (u c : Nat) (oras : List (List QOracle)),
      mutationsSaved (processUnits stopAt u c oras us).events = true := by
  intro us
  induction us with
  | nil => intro u c oras; rfl
  | cons unit0 rest ih =>
    intro u c oras
    unfold processUnits
    dsimp only
    split
    · rfl
    split
    · exact processQuestions_saved _ _ _ _ _ _
    · exact mutationsSaved_append _ _ (processQuestions_saved _ _ _ _ _ _) (ih _ _ _)

lemma processUnits_statusFree (stopAt : Option Nat) :
    ∀ (us : List QUnit) (u c : Nat) (oras : List (List QOracle)),
      statusFree (processUnits stopAt u c oras us).events = true := by
  intro us
  induction us with
  | nil => intro u c oras; rfl
  | cons unit0 rest ih =>
    intro u c oras
    unfold processUnits
    dsimp only
    split
    · rfl
    split
    · exact processQuestions_statusFree _ _ _ _ _ _
    · rw [statusFree_append, processQuestions_statusFree, ih]
      rfl

lemma statusFree_not_mem (l : List Event) (h : statusFree l = true) :
    Event.statusStopped ∉ l ∧ Event.statusComplete ∉ l := by
  simp only [statusFree, List.all_eq_true] at h
  constructor
  · intro hm
    have := h _ hm
    simp [isStatusEv] at this
  · intro hm
    have := h _ hm
    simp [isStatusEv] at this

lemma processQuestion_video_preserved (stopAt : Option Nat) (u i c : Nat)
    (ora : QOracle) (q : Question) (h : videoTruthy q.video = true) :
    (processQuestion stopAt u i c ora q).q.video = q.video := by
  unfold processQuestion
  dsimp only
  split
  · rfl
  · rw [videoStep_skip stopAt (c + 1) ora q h]
    dsimp only
    rw [if_neg Bool.false_ne_true]
    split
    · rfl
    · exact solutionStep_video _ _ _ _ _ _

lemma videoStep_none_not_stopped (c : Nat) (ora : QOracle) (q : Question) :
    (videoStep none c ora q).stopped = false := by
  unfold videoStep
  rw [stopIsSet_none, if_neg Bool.false_ne_true]
  split
  · rfl
  · split
    · split <;> rfl
    · rfl

lemma solutionStep_success (u i c : Nat) (ora : QOracle) (q : Question) (s : String)
    (hs : ora.solutionRes = some s) (hne : strTruthy s = true) :
    (solutionStep none u i c ora q).q.solution = some s ∧
      (solutionStep none u i c ora q).anomalies =
        (if ANOMALY_THRESHOLD < s.length then [(u, i, s.length)] else []) := by
  unfold solutionStep
  rw [stopIsSet_none]
  simp [FORCE_REGENERATE_SOLUTIONS, hs, hne]

/-! ## Claims -/

/-- Claim C6: for every credential list of length L ≥ 1, the rotator's
advance operation maps cursor i to (i + 1) mod L, advancing L times
returns to the original key, and the cursor always remains in [0, L). -/
theorem c6_rotation_cyclic (keys : List String) (i : Nat)
    (hk : keys ≠ []) (hi : i < keys.length) :
    switch_groq_api_key keys i = some ((i + 1) % keys.length) ∧
    switch_youtube_key keys i = some ((i + 1) % keys.length) ∧
    advanceN keys i keys.length = i ∧
    (∀ n : Nat, advanceN keys i n < keys.length) := by
  have hlen : 0 < keys.length := List.length_pos.mpr hk
  refine ⟨by simp [switch_groq_api_key, hk], by simp [switch_youtube_key, hk], ?_, ?_⟩
  · rw [advanceN_eq keys hk _ _ hi, Nat.add_mod_right, Nat.mod_eq_of_lt hi]
  · intro n
    rw [advanceN_eq keys hk n i hi]
    exact Nat.mod_lt _ hlen

/-- Witness for C6 at a concrete three-key list. -/
theorem c6_witness :
    switch_groq_api_key ["k1", "k2", "k3"] 1 = some 2 ∧
    switch_youtube_key ["k1", "k2", "k3"] 1 = some 2 ∧
    advanceN ["k1", "k2", "k3"] 1 3 = 1 ∧
    (∀ n : Nat, advanceN ["k1", "k2", "k3"] 1 n < 3) :=
  c6_rotation_cyclic ["k1", "k2", "k3"] 1 (by decide) (by decide)

/-- Claim C10: with no generation API key configured (uninitialized
client), `generate_with_retry` returns `None` immediately for every
input: zero attempts, no sleeps or rotations, and the key cursor is
untouched. -/
theorem c10_uninitialized_client (numKeys keyIndex : Nat)
    (outcomes : List GenOutcome) :
    generate_with_retry numKeys false keyIndex outcomes =
      (none, [], 0, ⟨keyIndex, 0⟩) := rfl

/-- Claim C2: with an initialized client over configured keys,
`generate_with_retry` makes at most 10 attempts; it returns `None` iff
none of the first 10 attempt outcomes is a success, in which case all 10
attempts are consumed (given at least 10 outcomes); a success is returned
as the result; a rate-limit outcome rotates the key and, when the
consecutive-rotation counter reaches the key count, sleeps 20s and resets
the counter, else sleeps 1s; any other error sleeps 5s without rotating
or counting. -/
theorem c2_generate_with_retry_spec (numKeys keyIndex : Nat)
    (outcomes : List GenOutcome) (_hk : 1 ≤ numKeys) :
    ((generate_with_retry numKeys true keyIndex outcomes).2.2.1 ≤ 10) ∧
    ((generate_with_retry numKeys true keyIndex outcomes).1 = none ↔
      (outcomes.take 10).all (fun o => !isSuccess o) = true) ∧
    (10 ≤ outcomes.length →
      (generate_with_retry numKeys true keyIndex outcomes).1 = none →
      (generate_with_retry numKeys true keyIndex outcomes).2.2.1 = 10) ∧
    (∀ (t : String) (rest : List GenOutcome) (s : GenState),
      generateLoop numKeys (GenOutcome.success t :: rest) s = (some t, [], 1, s)) ∧
    (∀ (rest : List GenOutcome) (s : GenState),
      generateLoop numKeys (GenOutcome.rateLimit :: rest) s =
        ((generateLoop numKeys rest ⟨(s.keyIndex + 1) % numKeys,
            if numKeys ≤ s.keysTried + 1 then 0 else s.keysTried + 1⟩).1,
          GenAction.rotate ((s.keyIndex + 1) % numKeys) ::
            GenAction.sleep (if numKeys ≤ s.keysTried + 1 then 20 else 1) ::
            (generateLoop numKeys rest ⟨(s.keyIndex + 1) % numKeys,
              if numKeys ≤ s.keysTried + 1 then 0 else s.keysTried + 1⟩).2.1,
          (generateLoop numKeys rest ⟨(s.keyIndex + 1) % numKeys,
            if numKeys ≤ s.keysTried + 1 then 0 else s.keysTried + 1⟩).2.2.1 + 1,
          (generateLoop numKeys rest ⟨(s.keyIndex + 1) % numKeys,
            if numKeys ≤ s.keysTried + 1 then 0 else s.keysTried + 1⟩).2.2.2)) ∧
    (∀ (rest : List GenOutcome) (s : GenState),
      generateLoop numKeys (GenOutcome.otherError :: rest) s =
        ((generateLoop numKeys rest s).1,
          GenAction.sleep 5 :: (generateLoop numKeys rest s).2.1,
          (generateLoop numKeys rest s).2.2.1 + 1,
          (generateLoop numKeys rest s).2.2.2)) := by
  refine ⟨?_, ?_, ?_, ?_, ?_, ?_⟩
  · calc (generate_with_retry numKeys true keyIndex outcomes).2.2.1
        ≤ (outcomes.take GEN_MAX_RETRIES).length :=
          generateLoop_attempts_le numKeys _ _
      _ ≤ 10 := by simp [List.length_take, GEN_MAX_RETRIES]
  · exact generateLoop_none_iff numKeys _ _
  · intro hlen hnone
    have hall := (generateLoop_none_iff numKeys (outcomes.take GEN_MAX_RETRIES)
      ⟨keyIndex, 0⟩).mp hnone
    have hatt := generateLoop_attempts_eq numKeys (outcomes.take GEN_MAX_RETRIES)
      ⟨keyIndex, 0⟩ hall
    show (generateLoop numKeys (outcomes.take GEN_MAX_RETRIES) ⟨keyIndex, 0⟩).2.2.1 = 10
    rw [hatt, List.length_take]
    show min GEN_MAX_RETRIES outcomes.length = 10
    rw [GEN_MAX_RETRIES]
    omega
  · intro t rest s; rfl
  · intro rest s; rfl
  · intro rest s; rfl

/-- Witness for C2 at one rate-limited then successful call. -/
theorem c2_witness :
    (generate_with_retry 2 true 0 [GenOutcome.rateLimit, GenOutcome.success "ok"]).2.2.1
      ≤ 10 :=
  (c2_generate_with_retry_spec 2 0 [GenOutcome.rateLimit, GenOutcome.success "ok"]
    (by decide)).1

/-- Claim C5: with an initialized video client, a non-empty query and at
least as many attempt outcomes as configured keys, the attempt count of
`search_youtube_video` is between 1 and the number of keys; a found item,
an empty result, or a non-auth error each end the loop after that single
attempt (no retry); an auth/quota error rotates and retries only when
more than one key is configured, and aborts at once with a single key. -/
theorem c5_search_retry_spec (numKeys : Nat) (query : String)
    (outcomes : List SearchOutcome) (hk : 1 ≤ numKeys) (hq : query ≠ "")
    (hlen : numKeys ≤ outcomes.length) :
    (1 ≤ (search_youtube_video numKeys true query outcomes).2.1 ∧
      (search_youtube_video numKeys true query outcomes).2.1 ≤ numKeys) ∧
    (∀ (v : VideoRef) (rest : List SearchOutcome) (b : Nat),
      searchLoop numKeys (b + 1) (SearchOutcome.found v :: rest) = (some v, 1, 0)) ∧
    (∀ (rest : List SearchOutcome) (b : Nat),
      searchLoop numKeys (b + 1) (SearchOutcome.noItems :: rest) = (none, 1, 0)) ∧
    (∀ (rest : List SearchOutcome) (b : Nat),
      searchLoop numKeys (b + 1) (SearchOutcome.otherError :: rest) = (none, 1, 0)) ∧
    (1 < numKeys → ∀ (rest : List SearchOutcome) (b : Nat),
      searchLoop numKeys (b + 1) (SearchOutcome.authError :: rest) =
        ((searchLoop numKeys b rest).1, (searchLoop numKeys b rest).2.1 + 1,
          (searchLoop numKeys b rest).2.2 + 1)) ∧
    (numKeys = 1 → ∀ (rest : List SearchOutcome) (b : Nat),
      searchLoop numKeys (b + 1) (SearchOutcome.authError :: rest) = (none, 1, 0)) := by
  have hz : numKeys ≠ 0 := by omega
  have hun : search_youtube_video numKeys true query outcomes =
      searchLoop numKeys numKeys outcomes := by
    unfold search_youtube_video
    rw [if_neg hq]
    simp [hz]
  refine ⟨⟨?_, ?_⟩, ?_, ?_, ?_, ?_, ?_⟩
  · rw [hun]
    cases hN : numKeys with
    | zero => omega
    | succ m =>
      cases houts : outcomes with
      | nil => rw [houts] at hlen; simp at hlen; omega
      | cons o rest => exact searchLoop_attempts_pos _ o rest m
  · rw [hun]
    exact searchLoop_attempts_le numKeys outcomes numKeys
  · intro v rest b; rfl
  · intro rest b; rfl
  · intro rest b; rfl
  · intro h rest b
    simp [searchLoop, h]
  · intro h rest b
    subst h
    simp [searchLoop]
  
/-- Witness for C5 at two keys, one auth error then an empty result. -/
theorem c5_witness :
    1 ≤ (search_youtube_video 2 true "q" [SearchOutcome.authError,
        SearchOutcome.noItems]).2.1 ∧
      (search_youtube_video 2 true "q" [SearchOutcome.authError,
        SearchOutcome.noItems]).2.1 ≤ 2 :=
  (c5_search_retry_spec 2 "q" [SearchOutcome.authError, SearchOutcome.noItems]
    (by decide) (by decide) (by decide)).1

/-- Claim C9: the comparison detector returns true iff the lowercased
text contains one of the fixed keywords; the table-formatting override is
a substring of the system prompt built for a question exactly when the
detector fires; text containing "difference between X and Y" triggers
it. -/
theorem c9_comparison_detector :
    (∀ text : String, is_comparison_question text = true ↔
      ∃ k ∈ comparison_keywords, strContains (strLower text) k = true) ∧
    (∀ text : String,
      strContains (get_detailed_solution_system_prompt text) formatting_override =
        is_comparison_question text) ∧
    is_comparison_question "Explain the difference between X and Y" = true ∧
    is_comparison_question "Define entropy briefly" = false := by
  refine ⟨?_, ?_, by decide, by decide⟩
  · intro text
    simp [is_comparison_question, List.any_eq_true]
  · intro text
    unfold get_detailed_solution_system_prompt
    cases h : is_comparison_question text
    · simp only [h, if_false, Bool.false_eq_true]
      decide
    · simp only [h, if_true]
      decide

/-- Counterexample to C1: a question whose `video` field holds the
explicit null (`searched, no result`) is re-processed by the video step —
a search query is generated and the video-search client is re-queried —
because the source guards the step with Python truthiness
(`if not question.get('video')`), and `null` is falsy. -/
theorem c1_counterexample :
    Event.genQuery ∈ (processQuestion none 0 0 0 ⟨some "q", none, none⟩
      ⟨"text", [], some none, none⟩).events ∧
    Event.searchCall ∈ (processQuestion none 0 0 0 ⟨some "q", none, none⟩
      ⟨"text", [], some none, none⟩).events := by decide

/-- Claim C1 (amended): for every question whose `video` field holds an
actual video reference (a truthy value), the walker's video step is
skipped: no search query is generated, the video-search client is not
queried, and the field is left unchanged.  (A question holding the
explicit null is re-queried.) -/
theorem c1_video_skip_amended (stopAt : Option Nat) (u i c : Nat) (ora : QOracle)
    (q : Question) (h : videoTruthy q.video = true) :
    Event.genQuery ∉ (processQuestion stopAt u i c ora q).events ∧
    Event.searchCall ∉ (processQuestion stopAt u i c ora q).events ∧
    (processQuestion stopAt u i c ora q).q.video = q.video := by
  unfold processQuestion
  dsimp only
  split
  · simp
  · rw [videoStep_skip stopAt (c + 1) ora q h]
    dsimp only
    rw [if_neg Bool.false_ne_true]
    split
    · simp
    · refine ⟨?_, ?_, ?_⟩
      · simpa using (solutionStep_noVideoEvents stopAt u i (c + 1 + 1) ora q).1
      · simpa using (solutionStep_noVideoEvents stopAt u i (c + 1 + 1) ora q).2
      · exact solutionStep_video _ _ _ _ _ _

/-- Witness for C1 (amended) at a question with a found video. -/
theorem c1_witness :
    Event.genQuery ∉ (processQuestion none 0 0 0 ⟨some "q", none, some "sol"⟩
      ⟨"text", [], some (some ⟨"id", "t", "ch", "q"⟩), none⟩).events ∧
    Event.searchCall ∉ (processQuestion none 0 0 0 ⟨some "q", none, some "sol"⟩
      ⟨"text", [], some (some ⟨"id", "t", "ch", "q"⟩), none⟩).events ∧
    (processQuestion none 0 0 0 ⟨some "q", none, some "sol"⟩
      ⟨"text", [], some (some ⟨"id", "t", "ch", "q"⟩), none⟩).q.video =
        some (some ⟨"id", "t", "ch", "q"⟩) :=
  c1_video_skip_amended none 0 0 0 ⟨some "q", none, some "sol"⟩
    ⟨"text", [], some (some ⟨"id", "t", "ch", "q"⟩), none⟩ (by decide)

/-- Claim C3: in every walk, each successful mutation — a found video
reference or a generated solution being written — is immediately followed
by a snapshot save; and the video step, when it runs on a truthy query,
records on the question whichever of found-reference / explicit-null the
search returned. -/
theorem c3_snapshot_flush :
    (∀ (stopAt : Option Nat) (oras : List (List QOracle)) (data : Subject),
      mutationsSaved (process_subject stopAt oras data).events = true) ∧
    (∀ (u i c : Nat) (ora : QOracle) (q : Question),
      videoTruthy q.video = false → optStrTruthy ora.queryRes = true →
      (processQuestion none u i c ora q).q.video = some ora.searchRes) := by
  constructor
  · intro stopAt oras data
    unfold process_subject
    dsimp only
    split
    · exact processUnits_saved _ _ _ _ _
    · refine mutationsSaved_append _ _ (processUnits_saved _ _ _ _ _) ?_
      split <;> rfl
  · intro u i c ora q hv hq
    have hset := videoStep_sets (c + 1) ora q hv hq
    unfold processQuestion
    rw [stopIsSet_none, if_neg Bool.false_ne_true]
    dsimp only
    rw [if_neg (by rw [hset.2]; exact Bool.false_ne_true), stopIsSet_none,
      if_neg Bool.false_ne_true]
    dsimp only
    rw [solutionStep_video, hset.1]

/-- Witness for C3 part 2: a found search result is persisted on the
question. -/
theorem c3_witness :
    (processQuestion none 0 0 0 ⟨some "q", some ⟨"id", "t", "ch", "q"⟩, none⟩
      ⟨"text", [], none, none⟩).q.video = some (some ⟨"id", "t", "ch", "q"⟩) :=
  c3_snapshot_flush.2 0 0 0 ⟨some "q", some ⟨"id", "t", "ch", "q"⟩, none⟩
    ⟨"text", [], none, none⟩ (by decide) (by decide)

/-- Counterexample to C4: a run cancelled at the very first checkpoint
finishes (returns the document, `stopped = true`) without emitting any
final status event — neither `Stopped` nor `Complete` — because the
cancellation checkpoints return before the final status block. -/
theorem c4_counterexample :
    (process_subject (some 0) [] ⟨"S", [⟨"U", [⟨"t", [], none, none⟩]⟩]⟩).stopped
        = true ∧
    Event.statusStopped ∉
      (process_subject (some 0) [] ⟨"S", [⟨"U", [⟨"t", [], none, none⟩]⟩]⟩).events ∧
    Event.statusComplete ∉
      (process_subject (some 0) [] ⟨"S", [⟨"U", [⟨"t", [], none, none⟩]⟩]⟩).events := by
  decide

/-- Claim C4 (amended): a final status event is emitted exactly when the
walk over the units runs to completion without an early cancellation
return: then the status is `Stopped` iff the flag is observed set at the
closing check and `Complete` iff it is not.  A run ended early at a
cancellation checkpoint emits no final status event at all. -/
theorem c4_final_status_amended (stopAt : Option Nat) (oras : List (List QOracle))
    (data : Subject) :
    ((process_subject stopAt oras data).stopped = true →
      Event.statusStopped ∉ (process_subject stopAt oras data).events ∧
      Event.statusComplete ∉ (process_subject stopAt oras data).events) ∧
    ((process_subject stopAt oras data).stopped = false →
      (Event.statusStopped ∈ (process_subject stopAt oras data).events ↔
        stopIsSet stopAt (process_subject stopAt oras data).finalCheck = true) ∧
      (Event.statusComplete ∈ (process_subject stopAt oras data).events ↔
        stopIsSet stopAt (process_subject stopAt oras data).finalCheck = false)) := by
  have hsf := statusFree_not_mem _ (processUnits_statusFree stopAt data.units 0 0 oras)
  unfold process_subject
  dsimp only
  split
  · constructor
    · intro _
      exact hsf
    · intro hfalse
      simp at hfalse
  · constructor
    · intro htrue
      simp at htrue
    · intro _
      cases hc : stopIsSet stopAt
        (processUnits stopAt 0 0 oras data.units).checkIdx
      · constructor
        · simp [List.mem_append, hsf.1]
        · simp [List.mem_append]
      · constructor
        · simp [List.mem_append]
        · simp [List.mem_append, hsf.2]

/-- Witness for C4 (amended): an uncancelled run over an empty bank emits
the `Complete` status. -/
theorem c4_witness :
    Event.statusComplete ∈ (process_subject none [] ⟨"S", []⟩).events :=
  (((c4_final_status_amended none [] ⟨"S", []⟩).2 (by decide)).2).mpr (by decide)

/-- Claim C7: a truthy `video` value survives the whole per-question
processing unchanged, and a failed solution generation (falsy result)
never changes the `solution` field — prior successes are never rolled
back by later failures, whatever the stop flag and oracle outcomes. -/
theorem c7_no_rollback (stopAt : Option Nat) (u i c : Nat) (ora : QOracle)
    (q : Question) :
    (videoTruthy q.video = true →
      (processQuestion stopAt u i c ora q).q.video = q.video) ∧
    (optStrTruthy ora.solutionRes = false →
      (processQuestion stopAt u i c ora q).q.solution = q.solution) := by
  constructor
  · intro h
    exact processQuestion_video_preserved stopAt u i c ora q h
  · intro h
    unfold processQuestion
    dsimp only
    split
    · rfl
    · split
      · exact videoStep_solution _ _ _ _
      · split
        · exact videoStep_solution _ _ _ _
        · rw [solutionStep_failed _ _ _ _ _ _ h, videoStep_solution]

/-- Witness for C7 at a truthy video and a failed generation. -/
theorem c7_witness :
    (processQuestion none 0 0 0 ⟨none, none, none⟩
      ⟨"text", [], some (some ⟨"id", "t", "ch", "q"⟩), some "old"⟩).q.video =
        some (some ⟨"id", "t", "ch", "q"⟩) ∧
    (processQuestion none 0 0 0 ⟨none, none, none⟩
      ⟨"text", [], some (some ⟨"id", "t", "ch", "q"⟩), some "old"⟩).q.solution =
        some "old" :=
  ⟨(c7_no_rollback none 0 0 0 ⟨none, none, none⟩
      ⟨"text", [], some (some ⟨"id", "t", "ch", "q"⟩), some "old"⟩).1 (by decide),
   (c7_no_rollback none 0 0 0 ⟨none, none, none⟩
      ⟨"text", [], some (some ⟨"id", "t", "ch", "q"⟩), some "old"⟩).2 (by decide)⟩

/-- Claim C8: a truthy generated solution is stored on the question, and
it is recorded in the anomaly list exactly when its length strictly
exceeds 8000 characters. -/
theorem c8_anomaly_threshold (u i c : Nat) (ora : QOracle) (q : Question)
    (s : String) (hs : ora.solutionRes = some s) (hne : strTruthy s = true) :
    (processQuestion none u i c ora q).q.solution = some s ∧
    (processQuestion none u i c ora q).anomalies =
      (if ANOMALY_THRESHOLD < s.length then [(u, i, s.length)] else []) := by
  unfold processQuestion
  rw [stopIsSet_none, if_neg Bool.false_ne_true]
  dsimp only
  rw [if_neg (by rw [videoStep_none_not_stopped]; exact Bool.false_ne_true),
    stopIsSet_none, if_neg Bool.false_ne_true]
  dsimp only
  have hsol := solutionStep_success u i ((videoStep none (c + 1) ora q).checkIdx + 1)
    ora (videoStep none (c + 1) ora q).q s hs hne
  rw [hsol.1, videoStep_anomalies, hsol.2]
  simp

/-- Witness for C8: a generated solution of exactly 8001 characters is
flagged and stored; one of exactly 8000 characters is stored and not
flagged. -/
theorem c8_witness :
    ((processQuestion none 0 0 0
        ⟨none, none, some (String.mk (List.replicate 8001 'a'))⟩
        ⟨"t", [], none, none⟩).q.solution =
          some (String.mk (List.replicate 8001 'a')) ∧
      (processQuestion none 0 0 0
        ⟨none, none, some (String.mk (List.replicate 8001 'a'))⟩
        ⟨"t", [], none, none⟩).anomalies = [(0, 0, 8001)]) ∧
    ((processQuestion none 0 0 0
        ⟨none, none, some (String.mk (List.replicate 8000 'a'))⟩
        ⟨"t", [], none, none⟩).q.solution =
          some (String.mk (List.replicate 8000 'a')) ∧
      (processQuestion none 0 0 0
        ⟨none, none, some (String.mk (List.replicate 8000 'a'))⟩
        ⟨"t", [], none, none⟩).anomalies = []) := by
  constructor
  · have h := c8_anomaly_threshold 0 0 0
      ⟨none, none, some (String.mk (List.replicate 8001 'a'))⟩
      ⟨"t", [], none, none⟩ (String.mk (List.replicate 8001 'a')) rfl (by decide)
    refine ⟨h.1, ?_⟩
    rw [h.2]
    have hlen : (String.mk (List.replicate 8001 'a')).length = 8001 := by
      rw [String.length_mk, List.length_replicate]
    rw [hlen, if_pos (by rw [ANOMALY_THRESHOLD]; omega)]
  · have h := c8_anomaly_threshold 0 0 0
      ⟨none, none, some (String.mk (List.replicate 8000 'a'))⟩
      ⟨"t", [], none, none⟩ (String.mk (List.replicate 8000 'a')) rfl (by decide)
    refine ⟨h.1, ?_⟩
    rw [h.2]
    have hlen : (String.mk (List.replicate 8000 'a')).length = 8000 := by
      rw [String.length_mk, List.length_replicate]
    rw [hlen, if_neg (by rw [ANOMALY_THRESHOLD]; omega)]
